import Mathlib

/-!
Shallow embedding of the history-tracking (undo/redo) state reducer of
`src/GrudgeContext.js` from stevekinney/grudges-react-state, together with the
grudge-list base reducer it wraps.

JavaScript values that may be `undefined` are modelled as `Option`:
`none` stands for `undefined`.  A `History` therefore stores `Option σ`
snapshots, because the source's array destructuring
`const [newPresent, ...newPast] = state.past` yields `undefined` on an empty
array, and that value flows into `present` and from there into the stored
`past`/`future` entries.
-/

namespace GrudgesApp

/-- JS destructuring `const [h, ...t] = arr`: the first element, which is
`undefined` (`none`) when the array is empty. -/
def jsHead {σ : Type} : List (Option σ) → Option σ
  | [] => none
  | x :: _ => x

/-- JS destructuring `const [h, ...t] = arr`: the rest of the array, `[]` when
the array is empty. -/
def jsTail {σ : Type} : List (Option σ) → List (Option σ)
  | [] => []
  | _ :: xs => xs

/-- The history envelope kept by `useUndoReducer`:
`{ past, present, future }`.  Every stored snapshot may be `undefined`
(`none`), as in the source. -/
structure History (σ : Type) where
  past : List (Option σ)
  present : Option σ
  future : List (Option σ)
  deriving DecidableEq

/-- A `History` whose entries are all defined snapshots, as in the spec's data
model (`past`/`future` are sequences of `Snapshot`, `present` a `Snapshot`). -/
def History.ofSpec {σ : Type} (past : List σ) (present : σ) (future : List σ) :
    History σ :=
  { past := past.map some, present := some present, future := future.map some }

/-- The initial history built by `useUndoReducer(reducer, initialState)`:
`undoState = { past: [], present: initialState, future: [] }`
(`src/GrudgeContext.js` lines 11–15). -/
def undoState {σ : Type} (initialState : σ) : History σ :=
  { past := [], present := some initialState, future := [] }

/-- The wrapped reducer `undoReducer` of `src/GrudgeContext.js` lines 17–43,
generic over the base reducer and the action type.  The base reducer receives
the (possibly `undefined`) present and may return `undefined`; `typeOf` reads
the JS field `action.type`.  Exactly as in the source, `newPresent` is computed
from the base reducer before the `UNDO`/`REDO` checks; the `UNDO` and `REDO`
branches shadow it with the head of `past` resp. `future`. -/
def undoReducer {σ α : Type} (reducer : Option σ → α → Option σ)
    (typeOf : α → String) (state : History σ) (action : α) : History σ :=
  let newPresent := reducer state.present action
  if typeOf action = "UNDO" then
    { past := jsTail state.past
      present := jsHead state.past
      future := state.present :: state.future }
  else if typeOf action = "REDO" then
    { past := state.present :: state.past
      present := jsHead state.future
      future := jsTail state.future }
  else
    { past := state.present :: state.past
      present := newPresent
      future := [] }

/-- The same wrapper for a base reducer that may signal an error (JS: throw),
modelled in `Option`-as-failure form: the outer `Option` is success/failure,
the inner `Option σ` is the returned (possibly `undefined`) snapshot.  The
source line `const newPresent = reducer(state.present, action)` runs the base
reducer before any branch, so a thrown error propagates out of the wrapper even
for `UNDO`/`REDO` actions. -/
def undoReducerF {σ α : Type} (reducer : Option σ → α → Option (Option σ))
    (typeOf : α → String) (state : History σ) (action : α) :
    Option (History σ) :=
  (reducer state.present action).map fun newPresent =>
    if typeOf action = "UNDO" then
      { past := jsTail state.past
        present := jsHead state.past
        future := state.present :: state.future }
    else if typeOf action = "REDO" then
      { past := state.present :: state.past
        present := jsHead state.future
        future := jsTail state.future }
    else
      { past := state.present :: state.past
        present := newPresent
        future := [] }

/-- A grudge record.  `forgiven : Option Bool` models the JS object field:
`none` means the field is absent (`undefined`), `some b` a stored boolean. -/
structure Grudge where
  id : String
  person : String
  reason : String
  forgiven : Option Bool
  deriving DecidableEq

/-- A snapshot of the tracked state: the ordered list of grudges. -/
abbrev Snapshot := List Grudge

/-- The actions dispatched in `src/GrudgeContext.js`.  `grudgeAdd` carries the
freshly generated uuid `newId` together with the payload `{person, reason}`;
`grudgeForgive` carries the payload `{id}`; `other t` is any action whose
`type` string `t` is none of the four recognised ones. -/
inductive GAction where
  | grudgeAdd (newId : String) (person : String) (reason : String)
  | grudgeForgive (targetId : String)
  | undo
  | redo
  | other (t : String)
  deriving DecidableEq

/-- The JS field `action.type`. -/
def GAction.type : GAction → String
  | .grudgeAdd _ _ _ => "GRUDGE_ADD"
  | .grudgeForgive _ => "GRUDGE_FORGIVE"
  | .undo => "UNDO"
  | .redo => "REDO"
  | .other t => t

/-- JS truthiness of a possibly-absent boolean field: `undefined` is falsy. -/
def jsTruthy : Option Bool → Bool
  | none => false
  | some b => b

/-- The callback passed to `state.map` in the `GRUDGE_FORGIVE` branch of the
base reducer (`src/GrudgeContext.js` lines 61–66): on the record whose `id`
matches, replace `forgiven` with the negation of its JS truthiness
(`{ ...grudge, forgiven: !grudge.forgiven }`); return any other record
unchanged. -/
def forgiveToggle (targetId : String) (grudge : Grudge) : Grudge :=
  if grudge.id = targetId then
    { grudge with forgiven := some (! jsTruthy grudge.forgiven) }
  else grudge

/-- The base reducer of `src/GrudgeContext.js` lines 48–70.  The JS default
parameter `state = initialState` substitutes the module's initial state when
the incoming state is `undefined`; `init` is that imported `initialState`
value (its records are generated with random names/uuids at module load, so it
is a parameter here).  `GRUDGE_ADD` prepends `{ id: id(), ...action.payload }`
— note no `forgiven` field; `GRUDGE_FORGIVE` maps over the list toggling
`forgiven` on the record whose `id` matches; any other action returns the
state unchanged. -/
def reducer (init : Snapshot) (state : Option Snapshot) (action : GAction) :
    Snapshot :=
  let s := state.getD init
  match action with
  | .grudgeAdd newId person reason =>
      { id := newId, person := person, reason := reason, forgiven := none } :: s
  | .grudgeForgive targetId => s.map (forgiveToggle targetId)
  | _ => s

/-- The instantiated history reducer the provider installs via
`useUndoReducer(reducer, initialState)`: the base reducer never returns
`undefined`, so its result is injected with `some`. -/
def grudgeUndoReducer (init : Snapshot) (state : History Snapshot)
    (action : GAction) : History Snapshot :=
  undoReducer (fun s a => some (reducer init s a)) GAction.type state action

/-! ### Branch lemmas for the wrapper -/

theorem undoReducer_undo {σ α : Type} (r : Option σ → α → Option σ)
    (typeOf : α → String) (H : History σ) (A : α) (h : typeOf A = "UNDO") :
    undoReducer r typeOf H A
      = { past := jsTail H.past, present := jsHead H.past,
          future := H.present :: H.future } := by
  simp [undoReducer, h]

theorem undoReducer_redo {σ α : Type} (r : Option σ → α → Option σ)
    (typeOf : α → String) (H : History σ) (A : α) (h : typeOf A = "REDO") :
    undoReducer r typeOf H A
      = { past := H.present :: H.past, present := jsHead H.future,
          future := jsTail H.future } := by
  simp [undoReducer, h]

theorem undoReducer_apply {σ α : Type} (r : Option σ → α → Option σ)
    (typeOf : α → String) (H : History σ) (A : α)
    (hU : typeOf A ≠ "UNDO") (hR : typeOf A ≠ "REDO") :
    undoReducer r typeOf H A
      = { past := H.present :: H.past, present := r H.present A,
          future := [] } := by
  simp [undoReducer, hU, hR]

/-! ### Lemmas about the forgive toggle -/

theorem forgiveToggle_id (i : String) (g : Grudge) :
    (forgiveToggle i g).id = g.id := by
  rw [forgiveToggle]; split <;> rfl

theorem forgiveToggle_person (i : String) (g : Grudge) :
    (forgiveToggle i g).person = g.person := by
  rw [forgiveToggle]; split <;> rfl

theorem forgiveToggle_reason (i : String) (g : Grudge) :
    (forgiveToggle i g).reason = g.reason := by
  rw [forgiveToggle]; split <;> rfl

theorem forgiveToggle_of_ne (i : String) (g : Grudge) (h : g.id ≠ i) :
    forgiveToggle i g = g :=
  if_neg h

theorem forgiveToggle_forgiveToggle (i : String) (g : Grudge)
    (hb : g.id = i → g.forgiven ≠ none) :
    forgiveToggle i (forgiveToggle i g) = g := by
  rcases g with ⟨gid, gp, gr, gf⟩
  by_cases h : gid = i
  · rcases gf with _ | b
    · exact absurd rfl (hb h)
    · simp [forgiveToggle, h, jsTruthy]
  · simp [forgiveToggle, h]

theorem map_forgiveToggle_involutive (i : String) (s : Snapshot)
    (hb : ∀ g ∈ s, g.id = i → g.forgiven ≠ none) :
    (s.map (forgiveToggle i)).map (forgiveToggle i) = s := by
  rw [List.map_map]
  induction s with
  | nil => rfl
  | cons a tl ih =>
      simp only [List.map_cons, Function.comp_apply, List.cons.injEq]
      exact ⟨forgiveToggle_forgiveToggle i a (hb a (by simp)),
        ih fun g hg => hb g (by simp [hg])⟩

/-! ### Claim C1 -/

/-- Claim C1 fails on the code: on the history `{past: [], present: [],
future: []}` an `UNDO` action does not return the identical history (the
destructuring of the empty `past` makes the new `present` `undefined` and the
old present is pushed onto `future`), and a `REDO` action likewise does not. -/
theorem C1_counterexample :
    grudgeUndoReducer [] (History.ofSpec [] [] []) GAction.undo
        ≠ History.ofSpec [] [] []
  ∧ grudgeUndoReducer [] (History.ofSpec [] [] []) GAction.redo
        ≠ History.ofSpec [] [] [] := by
  decide

/-- Claim C1 (amended): neither call throws, but neither is a no-op: `undo` on
a history with empty `past` returns `{past: [], present: undefined,
future: [H.present, ...H.future]}`, and `redo` on a history with empty
`future` returns `{past: [H.present, ...H.past], present: undefined,
future: []}`. -/
theorem C1_empty_undo_redo (init : Snapshot) (H : History Snapshot) :
    (H.past = [] →
      grudgeUndoReducer init H GAction.undo
        = { past := [], present := none, future := H.present :: H.future })
  ∧ (H.future = [] →
      grudgeUndoReducer init H GAction.redo
        = { past := H.present :: H.past, present := none, future := [] }) := by
  constructor
  · intro h
    rw [grudgeUndoReducer, undoReducer_undo _ _ _ _ rfl, h]
    rfl
  · intro h
    rw [grudgeUndoReducer, undoReducer_redo _ _ _ _ rfl, h]
    rfl

/-- Concrete instance of `C1_empty_undo_redo`. -/
theorem C1_empty_undo_redo_witness :
    grudgeUndoReducer [] { past := [], present := some [], future := [] }
        GAction.undo
      = { past := [], present := none, future := [some []] } :=
  (C1_empty_undo_redo [] { past := [], present := some [], future := [] }).1 rfl

/-! ### Claim C2 -/

/-- Claim C2 fails on the code: starting from the empty history and applying a
`GRUDGE_ADD` action, an immediately following `REDO` is not a no-op — it
changes the history (the new `present` becomes `undefined`). -/
theorem C2_counterexample :
    grudgeUndoReducer []
        (grudgeUndoReducer [] (History.ofSpec [] [] [])
          (GAction.grudgeAdd "id1" "Al" "parked badly"))
        GAction.redo
      ≠ grudgeUndoReducer [] (History.ofSpec [] [] [])
          (GAction.grudgeAdd "id1" "Al" "parked badly") := by
  decide

/-- Claim C2 (amended): because a fresh `apply` empties `future`, an
immediately following `redo` is not a no-op: it sets `present` to `undefined`
and pushes the applied present onto `past`, so the result always differs from
`apply(H, A)`. -/
theorem C2_redo_after_apply (init : Snapshot) (H : History Snapshot)
    (A : GAction) (hU : A.type ≠ "UNDO") (hR : A.type ≠ "REDO") :
    grudgeUndoReducer init (grudgeUndoReducer init H A) GAction.redo
      = { past := some (reducer init H.present A) :: H.present :: H.past,
          present := none, future := [] }
  ∧ grudgeUndoReducer init (grudgeUndoReducer init H A) GAction.redo
      ≠ grudgeUndoReducer init H A := by
  have h1 : grudgeUndoReducer init H A
      = { past := H.present :: H.past,
          present := some (reducer init H.present A), future := [] } :=
    undoReducer_apply _ _ _ _ hU hR
  have h2 : grudgeUndoReducer init (grudgeUndoReducer init H A) GAction.redo
      = { past := some (reducer init H.present A) :: H.present :: H.past,
          present := none, future := [] } := by
    rw [h1, grudgeUndoReducer, undoReducer_redo _ _ _ _ rfl]
    rfl
  refine ⟨h2, fun hEq => ?_⟩
  rw [h2, h1] at hEq
  exact Option.noConfusion (congrArg History.present hEq)

/-- Concrete instance of `C2_redo_after_apply`. -/
theorem C2_redo_after_apply_witness :
    GAction.type (GAction.grudgeAdd "id1" "Al" "parked badly") ≠ "UNDO"
  ∧ grudgeUndoReducer []
        (grudgeUndoReducer [] { past := [], present := some [], future := [] }
          (GAction.grudgeAdd "id1" "Al" "parked badly"))
        GAction.redo
      ≠ grudgeUndoReducer [] { past := [], present := some [], future := [] }
          (GAction.grudgeAdd "id1" "Al" "parked badly") :=
  ⟨by decide,
    (C2_redo_after_apply [] { past := [], present := some [], future := [] }
      (GAction.grudgeAdd "id1" "Al" "parked badly") (by decide) (by decide)).2⟩

/-! ### Claim C3 -/

/-- Claim C3 fails on the code: the source computes
`const newPresent = reducer(state.present, action)` before testing for
`UNDO`/`REDO`, so the base reducer is invoked on those actions too.  With a
base reducer that signals an error (here: one that always fails, versus one
that always succeeds), the wrapper's result on an `UNDO` action is not
independent of the supplied reducer: the failure propagates. -/
theorem C3_counterexample :
    undoReducerF
        (fun (_ : Option Snapshot) (_ : GAction) => (none : Option (Option Snapshot)))
        GAction.type (History.ofSpec [[]] [] []) GAction.undo
      ≠ undoReducerF
          (fun (s : Option Snapshot) (_ : GAction) => (some s : Option (Option Snapshot)))
          GAction.type (History.ofSpec [[]] [] []) GAction.undo := by
  decide

/-- Claim C3 (amended): the base reducer is invoked even on Undo/Redo actions
(its failure propagates, see the counterexample), but its returned value is
discarded on those branches: for base reducers that return a value, the
wrapper's result on an Undo or Redo action does not depend on which reducer
was supplied. -/
theorem C3_value_independent {σ α : Type} (r₁ r₂ : Option σ → α → Option σ)
    (typeOf : α → String) (H : History σ) (A : α)
    (h : typeOf A = "UNDO" ∨ typeOf A = "REDO") :
    undoReducer r₁ typeOf H A = undoReducer r₂ typeOf H A := by
  rcases h with h | h <;> simp [undoReducer, h]

/-- Concrete instance of `C3_value_independent`. -/
theorem C3_value_independent_witness :
    undoReducer (fun (_ : Option Snapshot) (_ : GAction) => (none : Option Snapshot))
        GAction.type (History.ofSpec [[]] [] []) GAction.undo
      = undoReducer (fun (s : Option Snapshot) (_ : GAction) => s)
          GAction.type (History.ofSpec [[]] [] []) GAction.undo :=
  C3_value_independent _ _ GAction.type (History.ofSpec [[]] [] [])
    GAction.undo (Or.inl rfl)

/-! ### Claim C4 -/

/-- Claim C4: for every history and every action whose type is neither `UNDO`
nor `REDO`, the wrapper returns `{past: [present, ...past],
present: reducer(present, action), future: []}` — the prior present is pushed
onto `past`, the new present is the base reducer applied to the pre-call
present, and `future` is emptied. -/
theorem C4_apply_shape (init : Snapshot) (H : History Snapshot) (A : GAction)
    (hU : A.type ≠ "UNDO") (hR : A.type ≠ "REDO") :
    grudgeUndoReducer init H A
      = { past := H.present :: H.past,
          present := some (reducer init H.present A), future := [] } :=
  undoReducer_apply _ _ _ _ hU hR

/-- Concrete instance of `C4_apply_shape`. -/
theorem C4_apply_shape_witness :
    GAction.type (GAction.grudgeAdd "id1" "Al" "parked badly") ≠ "UNDO"
  ∧ GAction.type (GAction.grudgeAdd "id1" "Al" "parked badly") ≠ "REDO"
  ∧ grudgeUndoReducer [] { past := [], present := some [], future := [] }
        (GAction.grudgeAdd "id1" "Al" "parked badly")
      = { past := [some []],
          present := some [{ id := "id1", person := "Al",
                             reason := "parked badly", forgiven := none }],
          future := [] } :=
  ⟨by decide, by decide,
    (C4_apply_shape [] { past := [], present := some [], future := [] }
        (GAction.grudgeAdd "id1" "Al" "parked badly")
        (by decide) (by decide)).trans (by decide)⟩

/-! ### Claim C5 -/

/-- Claim C5: for every history whose `past` is non-empty, an `undo`
immediately followed by a `redo` restores exactly the `present` snapshot that
existed before the `undo`. -/
theorem C5_undo_redo_roundtrip (init : Snapshot) (H : History Snapshot)
    (h : H.past ≠ []) :
    (grudgeUndoReducer init (grudgeUndoReducer init H GAction.undo)
        GAction.redo).present = H.present := by
  rw [grudgeUndoReducer, grudgeUndoReducer, undoReducer_redo _ _ _ _ rfl,
    undoReducer_undo _ _ _ _ rfl]
  rfl

/-- Concrete instance of `C5_undo_redo_roundtrip`. -/
theorem C5_undo_redo_roundtrip_witness :
    ({ past := [some []], present := some [], future := [] }
        : History Snapshot).past ≠ []
  ∧ (grudgeUndoReducer []
        (grudgeUndoReducer []
          { past := [some []], present := some [], future := [] }
          GAction.undo)
        GAction.redo).present = some [] :=
  ⟨by decide,
    C5_undo_redo_roundtrip []
      { past := [some []], present := some [], future := [] } (by decide)⟩

/-! ### Claim C6 -/

/-- Claim C6: the record created by a `GRUDGE_ADD` action is exactly
`{ id: id(), person, reason }` prepended to the state: it carries only the
generated id and the dispatched person and reason, and its `forgiven` field is
absent (`none`), not initialised to `false`. -/
theorem C6_add_record_shape (init : Snapshot) (s : Snapshot)
    (newId person reason : String) :
    reducer init (some s) (GAction.grudgeAdd newId person reason)
      = { id := newId, person := person, reason := reason,
          forgiven := none } :: s :=
  rfl

/-! ### Claim C7 -/

/-- Claim C7: an action whose type is none of `GRUDGE_ADD`, `GRUDGE_FORGIVE`,
`UNDO`, `REDO` reaches the base reducer's fall-through branch (which returns
the state unchanged), yet the wrapper still pushes the old present onto `past`
and clears `future`: a do-nothing action creates an undoable duplicate history
entry instead of leaving the history untouched. -/
theorem C7_unknown_action_duplicates (init : Snapshot)
    (past : List (Option Snapshot)) (s : Snapshot)
    (future : List (Option Snapshot)) (t : String)
    (h1 : t ≠ "GRUDGE_ADD") (h2 : t ≠ "GRUDGE_FORGIVE")
    (h3 : t ≠ "UNDO") (h4 : t ≠ "REDO") :
    grudgeUndoReducer init { past := past, present := some s, future := future }
        (GAction.other t)
      = { past := some s :: past, present := some s, future := [] } :=
  undoReducer_apply _ _ _ _ h3 h4

/-- Concrete instance of `C7_unknown_action_duplicates`. -/
theorem C7_unknown_action_duplicates_witness :
    "NOOP" ≠ "UNDO"
  ∧ grudgeUndoReducer [] { past := [], present := some [], future := [some []] }
        (GAction.other "NOOP")
      = { past := [some []], present := some [], future := [] } :=
  ⟨by decide,
    C7_unknown_action_duplicates [] [] [] [some []] "NOOP"
      (by decide) (by decide) (by decide) (by decide)⟩

/-! ### Claim C8 -/

/-- Claim C8: on a present snapshot in which every record carrying the given
id has a boolean `forgiven` flag, applying `GRUDGE_FORGIVE` for that id twice
in succession yields a present equal to the original snapshot — in particular
the record's original `forgiven` value is restored. -/
theorem C8_double_toggle_restores (init : Snapshot)
    (past : List (Option Snapshot)) (s : Snapshot)
    (future : List (Option Snapshot)) (i : String)
    (hb : ∀ g ∈ s, g.id = i → g.forgiven ≠ none) :
    (grudgeUndoReducer init
        (grudgeUndoReducer init
          { past := past, present := some s, future := future }
          (GAction.grudgeForgive i))
        (GAction.grudgeForgive i)).present = some s := by
  have hT : (GAction.grudgeForgive i).type = "GRUDGE_FORGIVE" := rfl
  rw [grudgeUndoReducer, grudgeUndoReducer,
    undoReducer_apply _ _ _ _ (by rw [hT]; decide) (by rw [hT]; decide),
    undoReducer_apply _ _ _ _ (by rw [hT]; decide) (by rw [hT]; decide)]
  exact congrArg some (map_forgiveToggle_involutive i s hb)

/-- Concrete instance of `C8_double_toggle_restores`. -/
theorem C8_double_toggle_restores_witness :
    (∀ g ∈ ([{ id := "a", person := "p", reason := "r", forgiven := some false }] : Snapshot),
        g.id = "a" → g.forgiven ≠ none)
  ∧ (grudgeUndoReducer []
        (grudgeUndoReducer []
          { past := [],
            present := some [{ id := "a", person := "p", reason := "r", forgiven := some false }],
            future := [] }
          (GAction.grudgeForgive "a"))
        (GAction.grudgeForgive "a")).present
      = some [{ id := "a", person := "p", reason := "r", forgiven := some false }] :=
  ⟨by decide,
    C8_double_toggle_restores [] []
      [{ id := "a", person := "p", reason := "r", forgiven := some false }]
      [] "a" (by decide)⟩

/-! ### Claim C9 -/

/-- Claim C9: the `GRUDGE_FORGIVE` transition preserves the length and order
of the record list; at every position the record keeps its `id`, `person` and
`reason`, and a record whose id does not match is returned completely
unchanged. -/
theorem C9_forgive_frame (init : Snapshot) (s : Snapshot) (i : String) :
    (reducer init (some s) (GAction.grudgeForgive i)).length = s.length
  ∧ ∀ (k : ℕ) (g : Grudge), s[k]? = some g →
      ∃ g', (reducer init (some s) (GAction.grudgeForgive i))[k]? = some g'
        ∧ g'.id = g.id ∧ g'.person = g.person ∧ g'.reason = g.reason
        ∧ (g.id ≠ i → g' = g) := by
  constructor
  · exact List.length_map s (forgiveToggle i)
  · intro k g hk
    refine ⟨forgiveToggle i g, ?_, forgiveToggle_id i g,
      forgiveToggle_person i g, forgiveToggle_reason i g,
      fun hne => forgiveToggle_of_ne i g hne⟩
    show (s.map (forgiveToggle i))[k]? = some (forgiveToggle i g)
    rw [List.getElem?_map (forgiveToggle i) s k, hk]
    rfl

/-- Concrete instance of `C9_forgive_frame`. -/
theorem C9_forgive_frame_witness :
    ∃ g', (reducer []
          (some [{ id := "a", person := "p", reason := "r", forgiven := some false }])
          (GAction.grudgeForgive "b"))[0]?
        = some g'
      ∧ g'.id = "a" ∧ g'.person = "p" ∧ g'.reason = "r"
      ∧ ("a" ≠ "b" →
          g' = { id := "a", person := "p", reason := "r",
                 forgiven := some false }) :=
  (C9_forgive_frame []
      [{ id := "a", person := "p", reason := "r", forgiven := some false }]
      "b").2 0
    { id := "a", person := "p", reason := "r", forgiven := some false }
    (by decide)

/-! ### Claim C10 -/

/-- Claim C10: `useUndoReducer` initialises the history as
`{past: [], present: initialSnapshot, future: []}` — `past` and `future` start
empty and `present` is exactly the caller-supplied snapshot. -/
theorem C10_initial_history {σ : Type} (initialSnapshot : σ) :
    undoState initialSnapshot
      = { past := [], present := some initialSnapshot, future := [] } :=
  rfl

end GrudgesApp
